import Mathlib

/-!
Shallow embedding of `src/lib/packet/scion.py` (SCION packet codecs).

Conventions:
- Python `bytes` values are modelled as `List Nat` (each element a byte value).
- Python `int` fields are modelled as `Int` (unbounded, signed).
- Code that can raise (struct/bitstring range errors, KeyError, AttributeError)
  returns `Option`/an explicit result type; `none`/an error constructor marks
  the raising path.
- The extension-header walk in `SCIONHeader.parse` is a `while` loop with no
  bound; it is modelled with an explicit fuel parameter, and exhausting the
  fuel is reported by a dedicated `diverge` constructor, so that genuine
  non-termination can be proved as `diverge` for every fuel value.
- Collaborator classes whose files are not part of the repository snapshot
  (host_addr.py, packet_base.py, path.py, opaque_field.py, ext_hdr.py) are
  modelled from the specification; each such definition carries a doc comment
  starting with `Modelled from the spec:`.
-/

/-- Big-endian byte encoding of `v` on `w` bytes (the `uintbe:8*w` format of
the `bitstring` library, applied after its range check has passed). -/
def beBytes : Nat → Nat → List Nat
  | 0, _ => []
  | w + 1, v => beBytes w (v / 256) ++ [v % 256]

/-- Big-endian value of a byte string (most significant byte first). -/
def beVal (l : List Nat) : Nat := l.foldl (fun acc b => acc * 256 + b) 0

/-- Little-endian value of a byte string: `int.from_bytes(b, 'little')`,
as used by `host_addr.to_int(endianness='little')` in `get_type`. -/
def toIntLittle : List Nat → Nat
  | [] => 0
  | b :: r => b + 256 * toIntLittle r

/-- Little-endian 4-byte encoding of `v` (helper for building concrete host
addresses in witnesses). -/
def leBytes4 (v : Nat) : List Nat :=
  [v % 256, v / 256 % 256, v / 65536 % 256, v / 16777216 % 256]

namespace PacketType

/-- Constants of class `PacketType` in the source. -/
def DATA : Int := 0

def AID_REQ : Int := 1

def AID_REP : Int := 2

def CERT_CHAIN_REQ_LOCAL : Int := 3

def CERT_CHAIN_REQ : Int := 4

def CERT_CHAIN_REP : Int := 5

def TRC_REQ_LOCAL : Int := 6

def TRC_REQ : Int := 7

def TRC_REP : Int := 8

def TO_LOCAL_ADDR : Int := 100

def BEACON : Int := 101

def PATH_MGMT : Int := 108

def OFG_KEY_REQ : Int := 114

def OFG_KEY_REP : Int := 115

def IFID_REQ : Int := 116

def IFID_REP : Int := 117

end PacketType

/-- First-match association-list lookup; dictionaries `TYPES_SRC`, `TYPES_DST`
and their inverses have pairwise-distinct keys, so this coincides with Python
dict lookup. -/
def lookupTbl {α β : Type} [DecidableEq α] : List (α × β) → α → Option β
  | [], _ => none
  | (a, b) :: r, k => if a = k then some b else lookupTbl r k

/-- The module-level dictionary `TYPES_SRC` (packet type → reserved source
pseudo-address). -/
def TYPES_SRC : List (Int × Nat) :=
  [(PacketType.CERT_CHAIN_REP, 33611786),
   (PacketType.PATH_MGMT, 67166218),
   (PacketType.TRC_REP, 134275082),
   (PacketType.BEACON, 16834570),
   (PacketType.OFG_KEY_REP, 117497866),
   (PacketType.IFID_REP, 167829514)]

/-- `TYPES_SRC_INV = {v: k for k, v in TYPES_SRC.items()}`. -/
def TYPES_SRC_INV : List (Nat × Int) := TYPES_SRC.map (fun p => (p.2, p.1))

/-- The module-level dictionary `TYPES_DST` (packet type → reserved destination
pseudo-address). -/
def TYPES_DST : List (Int × Nat) :=
  [(PacketType.CERT_CHAIN_REQ_LOCAL, 151052298),
   (PacketType.CERT_CHAIN_REQ, 33611786),
   (PacketType.PATH_MGMT, 67166218),
   (PacketType.TRC_REQ_LOCAL, 100720650),
   (PacketType.TRC_REQ, 134275082),
   (PacketType.OFG_KEY_REQ, 117497866),
   (PacketType.IFID_REQ, 167829514)]

/-- `TYPES_DST_INV = {v: k for k, v in TYPES_DST.items()}`. -/
def TYPES_DST_INV : List (Nat × Int) := TYPES_DST.map (fun p => (p.2, p.1))

/-- Modelled from the spec: the AddressCodec collaborator (`SCIONAddr` of
host_addr.py, not under src/). It carries ISD and AD identifiers and the host
address bytes, "exposes `length`, `pack`, and a constructor from raw bytes". -/
structure SCIONAddr where
  isd : Int
  ad : Int
  host_addr : List Nat
deriving DecidableEq, Repr

/-- Modelled from the spec: byte length of the ISD/AD prefix of a packed
`SCIONAddr` (2-byte ISD identifier plus an 8-byte AD identifier,
`IDSize.SIZE_AID`). -/
def ISD_AD_LEN : Nat := 10

/-- Modelled from the spec: an address's byte length (`addr_len`), the length
of its packed form. -/
def SCIONAddr.addr_len (a : SCIONAddr) : Nat := ISD_AD_LEN + a.host_addr.length

/-- Modelled from the spec: the AddressCodec "constructor from raw bytes". -/
def SCIONAddr.ofRaw (bs : List Nat) : SCIONAddr :=
  { isd := beVal (bs.take 2)
    ad := beVal ((bs.drop 2).take 8)
    host_addr := bs.drop ISD_AD_LEN }

/-- `SCIONAddr.from_values(isd, ad, host_addr)`. -/
def SCIONAddr.from_values (isd ad : Int) (host : List Nat) : SCIONAddr :=
  { isd := isd, ad := ad, host_addr := host }

/-- Modelled from the spec: `IPv4HostAddr(v)` (host_addr.py, not under src/),
a 4-byte host address built from a numeric pseudo-address. -/
def IPv4HostAddr (v : Nat) : List Nat := beBytes 4 v

/-- Encapsulates the common header for SCION packets (`SCIONCommonHdr`).
All eight fields are Python ints. -/
structure SCIONCommonHdr where
  type : Int
  src_addr_len : Int
  dst_addr_len : Int
  total_len : Int
  curr_iof_p : Int
  curr_of_p : Int
  next_hdr : Int
  hdr_len : Int
deriving DecidableEq, Repr

/-- `SCIONCommonHdr.LEN = 8`. -/
def SCIONCommonHdr.LEN : Nat := 8

/-- `SCIONCommonHdr.from_values(pkt_type, src_addr_len, dst_addr_len,
next_hdr)`: pointers start at `src_addr_len + dst_addr_len`,
`hdr_len = 8 + src_addr_len + dst_addr_len`, `total_len = hdr_len`. -/
def SCIONCommonHdr.from_values (pkt_type src_addr_len dst_addr_len next_hdr : Int) :
    SCIONCommonHdr :=
  { type := pkt_type
    src_addr_len := src_addr_len
    dst_addr_len := dst_addr_len
    next_hdr := next_hdr
    curr_of_p := src_addr_len + dst_addr_len
    curr_iof_p := src_addr_len + dst_addr_len
    hdr_len := (SCIONCommonHdr.LEN : Int) + src_addr_len + dst_addr_len
    total_len := (SCIONCommonHdr.LEN : Int) + src_addr_len + dst_addr_len }

/-- `SCIONCommonHdr.parse(raw)`: `none` models the early return on a buffer
shorter than 8 bytes (the header is then left unpopulated, `parsed` stays
false).  Field extraction from the first 16-bit word follows the source:
`type = (types & 0xf000) >> 12`, `src_addr_len = (types & 0x0fc0) >> 6`,
`dst_addr_len = types & 0x003f`. -/
def SCIONCommonHdr.parse (raw : List Nat) : Option SCIONCommonHdr :=
  match raw with
  | b0 :: b1 :: b2 :: b3 :: b4 :: b5 :: b6 :: b7 :: _ =>
    let types := b0 * 256 + b1
    some { type := ((types &&& 0xf000) >>> 12 : Nat)
           src_addr_len := ((types &&& 0x0fc0) >>> 6 : Nat)
           dst_addr_len := ((types &&& 0x003f) : Nat)
           total_len := (b2 * 256 + b3 : Nat)
           curr_iof_p := (b4 : Nat)
           curr_of_p := (b5 : Nat)
           next_hdr := (b6 : Nat)
           hdr_len := (b7 : Nat) }
  | _ => none

/-- `SCIONCommonHdr.pack()`: 8 bytes, big-endian, with
`types = (type << 12) | (dst_addr_len << 6) | src_addr_len`.  `none` models
the `bitstring` exception when a value is negative or does not fit its
`uintbe` width. -/
def SCIONCommonHdr.pack (h : SCIONCommonHdr) : Option (List Nat) :=
  if h.type < 0 ∨ h.dst_addr_len < 0 ∨ h.src_addr_len < 0 then none
  else
    let types : Nat :=
      (h.type.toNat <<< 12) ||| (h.dst_addr_len.toNat <<< 6) ||| h.src_addr_len.toNat
    if types < 65536 ∧ 0 ≤ h.total_len ∧ h.total_len < 65536 ∧
        0 ≤ h.curr_iof_p ∧ h.curr_iof_p < 256 ∧
        0 ≤ h.curr_of_p ∧ h.curr_of_p < 256 ∧
        0 ≤ h.next_hdr ∧ h.next_hdr < 256 ∧
        0 ≤ h.hdr_len ∧ h.hdr_len < 256 then
      some (beBytes 2 types ++ beBytes 2 h.total_len.toNat ++
            beBytes 1 h.curr_iof_p.toNat ++ beBytes 1 h.curr_of_p.toNat ++
            beBytes 1 h.next_hdr.toNat ++ beBytes 1 h.hdr_len.toNat)
    else none

namespace PathType

/-- Modelled from the spec: discriminant constants of the PathVariant
collaborator (`PathType` of path.py, not under src/); only their
distinctness matters to this development. -/
def EMPTY : Nat := 0

def CORE : Nat := 1

def CROSS_OVER : Nat := 2

def PEER_LINK : Nat := 3

end PathType

/-- Modelled from the spec: the OpaqueFieldCodec collaborator
(`InfoOpaqueField` of opaque_field.py, not under src/): a fixed-size 8-byte
path element exposing a `kind` discriminant (`info`) and a direction bit
(`up_flag`). -/
structure InfoOField where
  info : Nat
  up_flag : Bool
deriving DecidableEq, Repr

/-- `OpaqueField.LEN` (8-byte path elements). -/
def InfoOField.LEN : Int := 8

/-- Modelled from the spec: parsing a path element from raw bytes; the
discriminant and the direction flag live in the first byte of the 8-byte
slot (exact sub-byte layout is collaborator-defined: we place the
discriminant in the upper seven bits and the flag in the least significant
bit). An absent first byte yields the zero (EMPTY) discriminant, matching the
default-constructed `InfoOpaqueField()`. -/
def InfoOField.ofRaw (bs : List Nat) : InfoOField :=
  { info := bs.headD 0 >>> 1, up_flag := bs.headD 0 % 2 == 1 }

/-- Modelled from the spec: a default-constructed `InfoOpaqueField()` (all
fields zero, kind EMPTY). -/
def InfoOField.default : InfoOField := { info := 0, up_flag := false }

/-- Modelled from the spec: splitting a path byte range into its 8-byte
opaque-field slots (a trailing partial slot is kept). -/
def ofChunks : List Nat → List InfoOField
  | a :: b :: c :: d :: e :: f :: g :: h :: rest =>
    InfoOField.ofRaw [a, b, c, d, e, f, g, h] :: ofChunks rest
  | [] => []
  | short => [InfoOField.ofRaw short]

/-- Modelled from the spec: the PathVariant collaborator (path.py, not under
src/): a tagged sequence of opaque fields together with its packed byte
string; it exposes `pack`, `reverse`, `get_of(index)` and byte length. -/
structure PathBase where
  tag : Nat
  ofs : List InfoOField
  packBytes : List Nat
deriving DecidableEq, Repr

/-- Modelled from the spec: constructing a path variant from the byte range
`[offset, hdr_len)` of the packet buffer. -/
def PathBase.ofRaw (tag : Nat) (bs : List Nat) : PathBase :=
  { tag := tag, ofs := ofChunks bs, packBytes := bs }

/-- Modelled from the spec: `EmptyPath()` (constructed without bytes). -/
def PathBase.emptyPath : PathBase :=
  { tag := PathType.EMPTY, ofs := [], packBytes := [] }

/-- Modelled from the spec: `path.pack()`. -/
def PathBase.pack (p : PathBase) : List Nat := p.packBytes

/-- Modelled from the spec: the variant's own reversal; element order flips
(per-element direction-bit flips are variant-specific and left abstract). -/
def PathBase.reverse (p : PathBase) : PathBase := { p with ofs := p.ofs.reverse }

/-- Modelled from the spec: `path.get_of(index)`; out-of-range access is a
collaborator-level error, modelled as `none`. -/
def PathBase.get_of (p : PathBase) (i : Int) : Option InfoOField :=
  if 0 ≤ i then p.ofs.get? i.toNat else none

/-- Modelled from the spec: an extension record as built by the chain walk
(`ExtensionHeader`/`ICNExtHdr` of ext_hdr.py, not under src/): the type it
was reached under and its byte slice. -/
structure ExtHdr where
  ext_type : Nat
  bytes : List Nat
deriving DecidableEq, Repr

/-- Modelled from the spec: `len(ext_hdr)`, the extension record's byte
length. -/
def ExtHdr.len (e : ExtHdr) : Nat := e.bytes.length

/-- Sum of `len(ext_hdr)` over a chain. -/
def extLenSum (l : List ExtHdr) : Nat := (l.map ExtHdr.len).sum

/-- The SCION packet header (`SCIONHeader`). -/
structure SCIONHeader where
  common_hdr : SCIONCommonHdr
  src_addr : SCIONAddr
  dst_addr : SCIONAddr
  path : Option PathBase
  extension_hdrs : List ExtHdr
deriving DecidableEq, Repr

/-- `SCIONHeader.MIN_LEN = 16`. -/
def SCIONHeader.MIN_LEN : Nat := 16

/-- `SCIONHeader.from_values(src, dst, pkt_type, path, ext_hdrs, next_hdr)`:
builds the common header, then adds the packed path length to both `hdr_len`
and `total_len` when a path is present, then adds each extension's length to
`total_len`. -/
def SCIONHeader.from_values (src dst : SCIONAddr) (pkt_type : Int)
    (path : Option PathBase) (ext_hdrs : List ExtHdr) (next_hdr : Int) :
    SCIONHeader :=
  let ch := SCIONCommonHdr.from_values pkt_type src.addr_len dst.addr_len next_hdr
  let ch :=
    match path with
    | some p =>
      { ch with hdr_len := ch.hdr_len + p.pack.length
                total_len := ch.total_len + p.pack.length }
    | none => ch
  let ch := { ch with total_len := ch.total_len + extLenSum ext_hdrs }
  { common_hdr := ch, src_addr := src, dst_addr := dst, path := path,
    extension_hdrs := ext_hdrs }

/-- `SCIONHeader.__len__()`: `common_hdr.hdr_len` plus the summed extension
lengths. -/
def SCIONHeader.byteLen (h : SCIONHeader) : Int :=
  h.common_hdr.hdr_len + (extLenSum h.extension_hdrs : Int)

/-- `SCIONHeader.get_current_iof()`: `None` without a path, otherwise the
path element at `(curr_iof_p - (src_addr_len + dst_addr_len)) //
OpaqueField.LEN` (Python floor division). -/
def SCIONHeader.get_current_iof (h : SCIONHeader) : Option InfoOField :=
  match h.path with
  | none => none
  | some p =>
    p.get_of ((h.common_hdr.curr_iof_p -
      (h.common_hdr.src_addr_len + h.common_hdr.dst_addr_len)).fdiv InfoOField.LEN)

/-- `SCIONHeader.get_current_of()`, analogous with `curr_of_p`. -/
def SCIONHeader.get_current_of (h : SCIONHeader) : Option InfoOField :=
  match h.path with
  | none => none
  | some p =>
    p.get_of ((h.common_hdr.curr_of_p -
      (h.common_hdr.src_addr_len + h.common_hdr.dst_addr_len)).fdiv InfoOField.LEN)

/-- `SCIONHeader.is_on_up_path()`: returns the current info field's `up_flag`
when one exists; the `else` branch of the source evaluates the bare
expression `True` without returning it, so the method falls through and
returns Python `None`, modelled as `Option.none`. -/
def SCIONHeader.is_on_up_path (h : SCIONHeader) : Option Bool :=
  match h.get_current_iof with
  | some iof => some iof.up_flag
  | none => none

/-- `SCIONHeader.reverse()`: swaps the addresses, reverses the path (an
`AttributeError` — modelled as `none` — when `path` is `None`), and resets
both pointers to `src_addr_len + dst_addr_len`. -/
def SCIONHeader.reverse (h : SCIONHeader) : Option SCIONHeader :=
  match h.path with
  | none => none
  | some p =>
    some { h with
      src_addr := h.dst_addr
      dst_addr := h.src_addr
      path := some p.reverse
      common_hdr := { h.common_hdr with
        curr_of_p := h.common_hdr.src_addr_len + h.common_hdr.dst_addr_len
        curr_iof_p := h.common_hdr.src_addr_len + h.common_hdr.dst_addr_len } }

/-- Result of the extension-chain walk in `SCIONHeader.parse`. -/
inductive WalkResult where
  | ok (exts : List ExtHdr)
  | err
  | diverge
deriving DecidableEq, Repr

/-- The `while cur_hdr_type != 0` extension walk of `SCIONHeader.parse`:
reads a 2-byte prefix `(next_hdr_type, hdr_len)` at `offset` (fewer than two
available bytes make `bitstring` raise: `err`), appends an extension record
over `raw[offset : offset + hdr_len]`, then continues at `offset + hdr_len`
under type `next_hdr_type`.  `fuel` bounds the number of iterations; running
out of fuel is reported as `diverge`. -/
def extWalk : Nat → List Nat → Nat → Nat → List ExtHdr → WalkResult
  | 0, _, _, curType, acc =>
    if curType = 0 then .ok acc.reverse else .diverge
  | fuel + 1, raw, offset, curType, acc =>
    if curType = 0 then .ok acc.reverse
    else
      match raw.drop offset with
      | nt :: hl :: _ =>
        extWalk fuel raw (offset + hl) nt
          ({ ext_type := curType, bytes := (raw.drop offset).take hl } :: acc)
      | _ => .err

/-- Result of `SCIONHeader.parse`. -/
inductive HdrParseResult where
  | tooShort
  | raised
  | diverge
  | ok (hdr : SCIONHeader)
deriving DecidableEq, Repr

/-- `SCIONHeader.parse(raw)` with explicit fuel for the extension walk:
`tooShort` models the early return on buffers under 16 bytes (header left
unpopulated), `raised` a Python exception, `diverge` a walk that exhausted
the fuel.  Address parsing, path dispatch on the info field's discriminant,
and the extension walk follow the source line by line. -/
def SCIONHeader.parseFuel (fuel : Nat) (raw : List Nat) : HdrParseResult :=
  if raw.length < SCIONHeader.MIN_LEN then .tooShort
  else
    match SCIONCommonHdr.parse (raw.take SCIONCommonHdr.LEN) with
    | none => .raised
    | some ch =>
      let sl := ch.src_addr_len.toNat
      let dl := ch.dst_addr_len.toNat
      let src := SCIONAddr.ofRaw ((raw.drop SCIONCommonHdr.LEN).take sl)
      let dst := SCIONAddr.ofRaw ((raw.drop (SCIONCommonHdr.LEN + sl)).take dl)
      let offset := SCIONCommonHdr.LEN + sl + dl
      let hl := ch.hdr_len.toNat
      let info :=
        if offset = hl then InfoOField.default
        else InfoOField.ofRaw ((raw.drop offset).take 8)
      let pathSlice := (raw.drop offset).take (hl - offset)
      let path : Option PathBase :=
        if info.info = PathType.CORE then some (PathBase.ofRaw PathType.CORE pathSlice)
        else if info.info = PathType.CROSS_OVER then
          some (PathBase.ofRaw PathType.CROSS_OVER pathSlice)
        else if info.info = PathType.PEER_LINK then
          some (PathBase.ofRaw PathType.PEER_LINK pathSlice)
        else if info.info = PathType.EMPTY then some PathBase.emptyPath
        else none
      match extWalk fuel raw hl ch.next_hdr.toNat [] with
      | .ok exts =>
        .ok { common_hdr := ch, src_addr := src, dst_addr := dst, path := path,
              extension_hdrs := exts }
      | .err => .raised
      | .diverge => .diverge

/-- Concrete common header with distinct address lengths, used to exhibit the
pack/parse mismatch of claim C1. -/
def c1hdr : SCIONCommonHdr :=
  { type := 0, src_addr_len := 1, dst_addr_len := 2, total_len := 8,
    curr_iof_p := 3, curr_of_p := 3, next_hdr := 0, hdr_len := 11 }

/-- Claim C1: parsing the 8-byte output of `pack` does NOT reproduce the same
field values whenever `src_addr_len ≠ dst_addr_len`: `pack` writes
`dst_addr_len` into bits 11–6 and `src_addr_len` into bits 5–0, while `parse`
reads `src_addr_len` from bits 11–6 and `dst_addr_len` from bits 5–0, so the
two address lengths come back swapped.  Evaluated at the concrete header
`c1hdr` (src_addr_len 1, dst_addr_len 2): the round trip returns
src_addr_len 2 and dst_addr_len 1. -/
theorem scion_c1_commonhdr_roundtrip_swap :
    ((SCIONCommonHdr.pack c1hdr).bind SCIONCommonHdr.parse).map
        (fun h => (h.src_addr_len, h.dst_addr_len)) = some (2, 1) ∧
      c1hdr.src_addr_len = 1 ∧ c1hdr.dst_addr_len = 2 := by
  decide

/-- Claim C8 counterexample: `CommonHeader.from_values(type=0, src_len=8,
dst_len=8, next_hdr=0)` produces `total_len = 24`, not `8` as the claim
states (the source sets `total_len = hdr_len = 8 + 8 + 8`). -/
theorem scion_c8_total_len_ctrex :
    (SCIONCommonHdr.from_values 0 8 8 0).total_len = 24 ∧
      (SCIONCommonHdr.from_values 0 8 8 0).total_len ≠ 8 := by
  decide

/-- Claim C8 (amended): `from_values(0, 8, 8, 0)` followed by `pack()` yields
exactly 8 bytes whose first 16-bit big-endian word equals `0x0208`, and the
constructed header has `total_len = 24` (not 8) and `hdr_len = 24`. -/
theorem scion_c8_example_amended :
    SCIONCommonHdr.pack (SCIONCommonHdr.from_values 0 8 8 0) =
        some [2, 8, 0, 24, 16, 16, 0, 24] ∧
      ([2, 8, 0, 24, 16, 16, 0, 24] : List Nat).length = 8 ∧
      (2 * 256 + 8 : Nat) = 0x0208 ∧
      (SCIONCommonHdr.from_values 0 8 8 0).total_len = 24 ∧
      (SCIONCommonHdr.from_values 0 8 8 0).hdr_len = 24 := by
  decide

/-- A minimal common header (all fields zero), used to build concrete witness
headers. -/
def zeroCommonHdr : SCIONCommonHdr :=
  { type := 0, src_addr_len := 0, dst_addr_len := 0, total_len := 0,
    curr_iof_p := 0, curr_of_p := 0, next_hdr := 0, hdr_len := 0 }

/-- Claim C3 failing input: a 16-byte packet whose common header announces an
extension chain (`next_hdr = 5`, `hdr_len = 8`, no addresses) and whose first
extension record carries `next_type = 5` and embedded record length `0`. -/
def c3raw : List Nat := [0, 0, 0, 16, 0, 0, 5, 8, 5, 0, 0, 0, 0, 0, 0, 0]

/-- On `c3raw` the extension walk never leaves offset 8: the record length
read there is 0 and the next type is 5 ≠ 0, so every amount of fuel is
exhausted. -/
theorem extWalk_c3_diverge :
    ∀ (fuel : Nat) (t : Nat), t ≠ 0 → ∀ acc : List ExtHdr,
      extWalk fuel c3raw 8 t acc = WalkResult.diverge := by
  intro fuel
  induction fuel with
  | zero =>
    intro t ht acc
    simp [extWalk, ht]
  | succ n ih =>
    intro t ht acc
    have h8 : c3raw.drop 8 = [5, 0, 0, 0, 0, 0, 0, 0] := by decide
    simp only [extWalk, ht, if_false, h8]
    exact ih 5 (by decide) _

/-- The common header parsed from the first 8 bytes of `c3raw`. -/
def c3ch : SCIONCommonHdr :=
  { type := 0, src_addr_len := 0, dst_addr_len := 0, total_len := 16,
    curr_iof_p := 0, curr_of_p := 0, next_hdr := 5, hdr_len := 8 }

/-- Claim C3: `SCIONHeader.parse` does NOT terminate on every input: on
`c3raw` — an extension record with embedded record length 0 and nonzero
next-type — the walk loops forever at offset 8, for every fuel bound, instead
of rejecting the chain as malformed. -/
theorem scion_c3_ext_walk_diverges (fuel : Nat) :
    SCIONHeader.parseFuel fuel c3raw = HdrParseResult.diverge := by
  have hstep : SCIONHeader.parseFuel fuel c3raw =
      (match extWalk fuel c3raw 8 5 [] with
       | .ok exts =>
         HdrParseResult.ok
           { common_hdr := c3ch, src_addr := SCIONAddr.ofRaw [],
             dst_addr := SCIONAddr.ofRaw [], path := some PathBase.emptyPath,
             extension_hdrs := exts }
       | .err => HdrParseResult.raised
       | .diverge => HdrParseResult.diverge) := rfl
  rw [hstep, extWalk_c3_diverge fuel 5 (by decide) []]

/-- Witness for C3 at a concrete fuel value. -/
theorem scion_c3_ext_walk_diverges_witness :
    SCIONHeader.parseFuel 5 c3raw = HdrParseResult.diverge :=
  scion_c3_ext_walk_diverges 5

/-- Claim C5: for every header without a path, `is_on_up_path()` returns
Python `None` (modelled `Option.none`), NOT `True`: the `else` branch of the
source evaluates the bare expression `True` and falls through without a
`return` statement. -/
theorem scion_c5_up_path_none (h : SCIONHeader) (hp : h.path = none) :
    h.is_on_up_path = none := by
  simp [SCIONHeader.is_on_up_path, SCIONHeader.get_current_iof, hp]

/-- Concrete pathless header for the C5 witness. -/
def c5hdr : SCIONHeader :=
  { common_hdr := zeroCommonHdr, src_addr := SCIONAddr.from_values 0 0 [],
    dst_addr := SCIONAddr.from_values 0 0 [], path := none,
    extension_hdrs := [] }

/-- Witness for C5: the concrete pathless header returns `none`. -/
theorem scion_c5_up_path_none_witness : c5hdr.is_on_up_path = none :=
  scion_c5_up_path_none c5hdr rfl

/-- Claim C10: `reverse()` requires a present path.  Part 1: with `path`
absent it raises (`self.path.reverse()` on `None`), modelled as `none`.
Part 2: with a path present it completes with the addresses swapped and both
pointers reset to `src_addr_len + dst_addr_len`. -/
theorem scion_c10_reverse_requires_path :
    (∀ h : SCIONHeader, h.path = none → h.reverse = none) ∧
    (∀ (h : SCIONHeader) (p : PathBase), h.path = some p →
      ∃ h', h.reverse = some h' ∧ h'.src_addr = h.dst_addr ∧
        h'.dst_addr = h.src_addr ∧
        h'.common_hdr.curr_of_p =
          h.common_hdr.src_addr_len + h.common_hdr.dst_addr_len ∧
        h'.common_hdr.curr_iof_p =
          h.common_hdr.src_addr_len + h.common_hdr.dst_addr_len) := by
  constructor
  · intro h hp
    simp [SCIONHeader.reverse, hp]
  · intro h p hp
    simp only [SCIONHeader.reverse, hp]
    exact ⟨_, rfl, rfl, rfl, rfl, rfl⟩

/-- Concrete pathless header for the C10 witness. -/
def c10hdrNone : SCIONHeader :=
  { common_hdr := zeroCommonHdr, src_addr := SCIONAddr.from_values 1 1 [1],
    dst_addr := SCIONAddr.from_values 2 2 [2], path := none,
    extension_hdrs := [] }

/-- Concrete header with a (trivial) path for the C10 witness. -/
def c10hdrPath : SCIONHeader :=
  { common_hdr := { zeroCommonHdr with src_addr_len := 11, dst_addr_len := 11 },
    src_addr := SCIONAddr.from_values 1 1 [1],
    dst_addr := SCIONAddr.from_values 2 2 [2],
    path := some PathBase.emptyPath, extension_hdrs := [] }

/-- Witness for C10: both parts applied at concrete headers. -/
theorem scion_c10_reverse_requires_path_witness :
    c10hdrNone.reverse = none ∧
    (∃ h', c10hdrPath.reverse = some h' ∧ h'.src_addr = c10hdrPath.dst_addr ∧
      h'.dst_addr = c10hdrPath.src_addr ∧
      h'.common_hdr.curr_of_p =
        c10hdrPath.common_hdr.src_addr_len + c10hdrPath.common_hdr.dst_addr_len ∧
      h'.common_hdr.curr_iof_p =
        c10hdrPath.common_hdr.src_addr_len + c10hdrPath.common_hdr.dst_addr_len) :=
  ⟨scion_c10_reverse_requires_path.1 c10hdrNone rfl,
   scion_c10_reverse_requires_path.2 c10hdrPath PathBase.emptyPath rfl⟩

/-- `SCIONPacket`: envelope with header, payload and `payload_len`.
`payload_len` is a Python int (it transiently holds `dlen - hdr_len`, which
can be negative on malformed buffers, before `set_payload` overwrites it). -/
structure SCIONPacket where
  hdr : SCIONHeader
  payload : List Nat
  payload_len : Int
deriving DecidableEq, Repr

/-- `SCIONPacket.MIN_LEN = 8`. -/
def SCIONPacket.MIN_LEN : Nat := 8

/-- `SCIONPacket.set_payload(payload)`: stores the payload (via
`PacketBase.set_payload`), subtracts the old `payload_len` from `total_len`,
sets `payload_len = len(payload)` and adds it back to `total_len`. -/
def SCIONPacket.set_payload (p : SCIONPacket) (q : List Nat) : SCIONPacket :=
  { p with
    payload := q
    payload_len := (q.length : Int)
    hdr := { p.hdr with common_hdr := { p.hdr.common_hdr with
      total_len := p.hdr.common_hdr.total_len - p.payload_len + q.length } } }

/-- `SCIONPacket.from_values(src, dst, payload, path, ext_hdrs, next_hdr,
pkt_type)`: builds the header, then stores the payload.  Modelled from the
spec: the assignment `pkt.payload = payload` goes through the PacketBase
payload property (packet_base.py, not under src/), whose setter dispatches to
`SCIONPacket.set_payload` — "the only sanctioned path for payload
mutation". -/
def SCIONPacket.from_values (src dst : SCIONAddr) (payload : List Nat)
    (path : Option PathBase) (ext_hdrs : List ExtHdr) (next_hdr : Int)
    (pkt_type : Int) : SCIONPacket :=
  (SCIONPacket.mk (SCIONHeader.from_values src dst pkt_type path ext_hdrs next_hdr)
    [] 0).set_payload payload

/-- Result of `SCIONPacket.parse`. -/
inductive PacketParseResult where
  | tooShort
  | raised
  | diverge
  | ok (pkt : SCIONPacket)
deriving DecidableEq, Repr

/-- `SCIONPacket.parse(raw)` with explicit walk fuel: buffers under 8 bytes
return unparsed (`tooShort`); a header that stayed unparsed (under 16 bytes)
makes the subsequent `len(self.hdr)` raise on the unpopulated `common_hdr`
(`raised`).  Otherwise `payload_len = dlen - len(hdr)` and the payload slice
`raw[len(hdr):]` is stored through the payload property, i.e. through
`set_payload` (see `SCIONPacket.from_values` for that spec-modelled
dispatch). -/
def SCIONPacket.parseFuel (fuel : Nat) (raw : List Nat) : PacketParseResult :=
  if raw.length < SCIONPacket.MIN_LEN then .tooShort
  else
    match SCIONHeader.parseFuel fuel raw with
    | .tooShort => .raised
    | .raised => .raised
    | .diverge => .diverge
    | .ok hdr =>
      let hbl : Int := SCIONHeader.byteLen hdr
      .ok ((SCIONPacket.mk hdr [] ((raw.length : Int) - hbl)).set_payload
        (raw.drop hbl.toNat))

/-- The length invariant of the spec: `payload_len` equals `total_len` minus
the header byte length (equivalently `total_len = header_byte_len +
payload_len`, with the extension lengths inside `header_byte_len`). -/
def lenInvariant (p : SCIONPacket) : Prop :=
  p.payload_len = p.hdr.common_hdr.total_len - SCIONHeader.byteLen p.hdr

instance (p : SCIONPacket) : Decidable (lenInvariant p) := by
  unfold lenInvariant
  infer_instance

/-- Claim C6: `set_payload(q)` leaves `payload_len = len(q)` and
`total_len = T - L + len(q)` (where `T`, `L` are the previous `total_len` and
`payload_len`), and changes no other common-header field. -/
theorem scion_c6_set_payload_frame (p : SCIONPacket) (q : List Nat) :
    (p.set_payload q).payload_len = (q.length : Int) ∧
    (p.set_payload q).hdr.common_hdr.total_len =
      p.hdr.common_hdr.total_len - p.payload_len + q.length ∧
    (p.set_payload q).hdr.common_hdr.type = p.hdr.common_hdr.type ∧
    (p.set_payload q).hdr.common_hdr.src_addr_len = p.hdr.common_hdr.src_addr_len ∧
    (p.set_payload q).hdr.common_hdr.dst_addr_len = p.hdr.common_hdr.dst_addr_len ∧
    (p.set_payload q).hdr.common_hdr.curr_iof_p = p.hdr.common_hdr.curr_iof_p ∧
    (p.set_payload q).hdr.common_hdr.curr_of_p = p.hdr.common_hdr.curr_of_p ∧
    (p.set_payload q).hdr.common_hdr.next_hdr = p.hdr.common_hdr.next_hdr ∧
    (p.set_payload q).hdr.common_hdr.hdr_len = p.hdr.common_hdr.hdr_len := by
  refine ⟨rfl, rfl, rfl, rfl, rfl, rfl, rfl, rfl, rfl⟩

/-- Witness for C6 (no hypotheses; concrete instance for good measure). -/
theorem scion_c6_set_payload_frame_witness :
    ((SCIONPacket.mk c5hdr [] 0).set_payload [7, 7]).payload_len = 2 :=
  (scion_c6_set_payload_frame (SCIONPacket.mk c5hdr [] 0) [7, 7]).1

/-- `get_addr_from_type(ptype)`: source-table pseudo-address when `ptype` is
a key of `TYPES_SRC`, otherwise the destination-table one; a miss in both
raises `KeyError` (`none`). -/
def get_addr_from_type (ptype : Int) : Option SCIONAddr :=
  match lookupTbl TYPES_SRC ptype with
  | some v => some (SCIONAddr.from_values 0 0 (IPv4HostAddr v))
  | none => (lookupTbl TYPES_DST ptype).map
      (fun v => SCIONAddr.from_values 0 0 (IPv4HostAddr v))

/-- `get_type(pkt)`: looks the little-endian integer value of the source host
address up in `TYPES_SRC_INV` first, then the destination host address in
`TYPES_DST_INV`, and falls back to `PacketType.DATA`. -/
def get_type (pkt : SCIONPacket) : Int :=
  match lookupTbl TYPES_SRC_INV (toIntLittle pkt.hdr.src_addr.host_addr) with
  | some t => t
  | none =>
    match lookupTbl TYPES_DST_INV (toIntLittle pkt.hdr.dst_addr.host_addr) with
    | some t => t
    | none => PacketType.DATA

/-- Claim C9: `get_type` returns the source-table type whenever the source
host address matches (regardless of the destination address, so the source
table wins when both match); otherwise the destination-table type when the
destination matches; otherwise `PacketType.DATA`. -/
theorem scion_c9_get_type_dispatch :
    (∀ (pkt : SCIONPacket) (t : Int),
      lookupTbl TYPES_SRC_INV (toIntLittle pkt.hdr.src_addr.host_addr) = some t →
      get_type pkt = t) ∧
    (∀ (pkt : SCIONPacket) (t : Int),
      lookupTbl TYPES_SRC_INV (toIntLittle pkt.hdr.src_addr.host_addr) = none →
      lookupTbl TYPES_DST_INV (toIntLittle pkt.hdr.dst_addr.host_addr) = some t →
      get_type pkt = t) ∧
    (∀ pkt : SCIONPacket,
      lookupTbl TYPES_SRC_INV (toIntLittle pkt.hdr.src_addr.host_addr) = none →
      lookupTbl TYPES_DST_INV (toIntLittle pkt.hdr.dst_addr.host_addr) = none →
      get_type pkt = PacketType.DATA) := by
  refine ⟨?_, ?_, ?_⟩
  · intro pkt t h
    simp [get_type, h]
  · intro pkt t h1 h2
    simp [get_type, h1, h2]
  · intro pkt h1 h2
    simp [get_type, h1, h2]

/-- Concrete packet whose source host address is the `IFID_REP` reserved
pseudo-address and whose destination host address is the
`CERT_CHAIN_REQ_LOCAL` one: both tables match, and `get_type` returns the
source-table type. -/
def c9pkt : SCIONPacket :=
  { hdr := { common_hdr := zeroCommonHdr,
             src_addr := SCIONAddr.from_values 0 0 (leBytes4 167829514),
             dst_addr := SCIONAddr.from_values 0 0 (leBytes4 151052298),
             path := none, extension_hdrs := [] },
    payload := [], payload_len := 0 }

/-- Witness for C9: on `c9pkt` (both addresses reserved), the source table
wins and `get_type` returns `IFID_REP`. -/
theorem scion_c9_get_type_dispatch_witness :
    get_type c9pkt = PacketType.IFID_REP :=
  scion_c9_get_type_dispatch.1 c9pkt PacketType.IFID_REP (by decide)

/-- Extracts the packet from an `ok` parse result (default otherwise). -/
def pktOfResult (r : PacketParseResult) (d : SCIONPacket) : SCIONPacket :=
  match r with
  | .ok p => p
  | _ => d

/-- A throw-away packet used as the default of `pktOfResult`. -/
def dummyPacket : SCIONPacket :=
  { hdr := { common_hdr := zeroCommonHdr,
             src_addr := SCIONAddr.from_values 0 0 [],
             dst_addr := SCIONAddr.from_values 0 0 [],
             path := none, extension_hdrs := [] },
    payload := [], payload_len := 0 }

/-- Claim C2 failing input: a well-formed 16-byte packet whose common header
lies about `total_len` (99 instead of 16): header bytes
`[0,0, 0,99, 0,0, 0,8]` followed by 8 payload bytes. -/
def c2badRaw : List Nat := [0, 0, 0, 99, 0, 0, 0, 8, 1, 2, 3, 4, 5, 6, 7, 8]

/-- The packet parsed from `c2badRaw`. -/
def c2badPkt : SCIONPacket := pktOfResult (SCIONPacket.parseFuel 1 c2badRaw) dummyPacket

/-- Claim C2 counterexample: parsing `c2badRaw` succeeds but the resulting
packet violates the length invariant (`payload_len = 8` while
`total_len - header_byte_len = 99 - 8 = 91`), so the invariant does NOT hold
at every point of a packet's lifetime — `parse` trusts the wire `total_len`. -/
theorem scion_c2_parse_invariant_ctrex :
    SCIONPacket.parseFuel 1 c2badRaw = PacketParseResult.ok c2badPkt ∧
      ¬ lenInvariant c2badPkt := by
  decide

/-- Claim C2 (amended): the length invariant `payload_len = total_len −
header_byte_len` holds immediately after `from_values`, is preserved by every
`set_payload` call, and after a successful `parse` (whose parsed header byte
length lies between 0 and the buffer length) it holds exactly when the
buffer's embedded `total_len` equals the buffer's length. -/
theorem scion_c2_length_invariant_amended :
    (∀ (src dst : SCIONAddr) (payload : List Nat) (path : Option PathBase)
        (ext_hdrs : List ExtHdr) (next_hdr pkt_type : Int),
      lenInvariant (SCIONPacket.from_values src dst payload path ext_hdrs
        next_hdr pkt_type)) ∧
    (∀ (p : SCIONPacket) (q : List Nat),
      lenInvariant p → lenInvariant (p.set_payload q)) ∧
    (∀ (fuel : Nat) (raw : List Nat) (pkt : SCIONPacket),
      SCIONPacket.parseFuel fuel raw = PacketParseResult.ok pkt →
      0 ≤ SCIONHeader.byteLen pkt.hdr →
      SCIONHeader.byteLen pkt.hdr ≤ (raw.length : Int) →
      (lenInvariant pkt ↔
        pkt.hdr.common_hdr.total_len = (raw.length : Int))) := by
  refine ⟨?_, ?_, ?_⟩
  · intro src dst payload path ext_hdrs next_hdr pkt_type
    unfold lenInvariant SCIONPacket.from_values SCIONPacket.set_payload
      SCIONHeader.from_values SCIONHeader.byteLen SCIONCommonHdr.from_values
    cases path <;> simp
  · intro p q h
    unfold lenInvariant at h ⊢
    unfold SCIONPacket.set_payload
    unfold SCIONHeader.byteLen at h ⊢
    simp at h ⊢
    omega
  · intro fuel raw pkt h h0 h1
    unfold SCIONPacket.parseFuel at h
    split at h
    · simp at h
    · split at h
      · simp at h
      · simp at h
      · simp at h
      · rename_i hdr heq
        injection h with h
        subst h
        unfold lenInvariant
        unfold SCIONPacket.set_payload SCIONHeader.byteLen at h0 h1 ⊢
        simp [List.length_drop] at h0 h1 ⊢
        omega

/-- A well-formed 16-byte packet (embedded `total_len` = buffer length = 16)
for the C2 witness. -/
def c2goodRaw : List Nat := [0, 0, 0, 16, 0, 0, 0, 8, 1, 2, 3, 4, 5, 6, 7, 8]

/-- The packet parsed from `c2goodRaw`. -/
def c2goodPkt : SCIONPacket :=
  pktOfResult (SCIONPacket.parseFuel 1 c2goodRaw) dummyPacket

/-- Witness for C2 (amended): all three parts at concrete inputs. -/
theorem scion_c2_length_invariant_amended_witness :
    lenInvariant (SCIONPacket.from_values (SCIONAddr.from_values 0 0 [])
      (SCIONAddr.from_values 0 0 []) [1, 2] none [] 0 0) ∧
    lenInvariant ((SCIONPacket.from_values (SCIONAddr.from_values 0 0 [])
      (SCIONAddr.from_values 0 0 []) [1, 2] none [] 0 0).set_payload [9, 9, 9]) ∧
    (lenInvariant c2goodPkt ↔
      c2goodPkt.hdr.common_hdr.total_len = (c2goodRaw.length : Int)) :=
  ⟨scion_c2_length_invariant_amended.1 (SCIONAddr.from_values 0 0 [])
      (SCIONAddr.from_values 0 0 []) [1, 2] none [] 0 0,
   scion_c2_length_invariant_amended.2.1 _ [9, 9, 9] (by decide),
   scion_c2_length_invariant_amended.2.2 1 c2goodRaw c2goodPkt (by decide)
     (by decide) (by decide)⟩

/-- `struct.pack("HH", a, b)`: two native-order, native-size unsigned shorts.
`struct` raises on values outside `[0, 2^16)` (`none`); byte order is the
platform's — modelled for the little-endian reference platform, so each short
is emitted least-significant byte first. -/
def structPackHH (a b : Int) : Option (List Nat) :=
  if 0 ≤ a ∧ a < 65536 ∧ 0 ≤ b ∧ b < 65536 then
    some [a.toNat % 256, a.toNat / 256, b.toNat % 256, b.toNat / 256]
  else none

/-- One `uintbe` field of `w` bytes for `bitstring.pack`; raises (`none`)
when the value is negative or too wide. -/
def uintbeField (w : Nat) (v : Int) : Option (List Nat) :=
  if 0 ≤ v ∧ v < ((2 ^ (8 * w) : Nat) : Int) then some (beBytes w v.toNat)
  else none

/-- `bitstring.pack` over a list of (byte-width, value) fields. -/
def packFields : List (Nat × Int) → Option (List Nat)
  | [] => some []
  | (w, v) :: rest =>
    match uintbeField w v, packFields rest with
    | some bs, some rs => some (bs ++ rs)
    | _, _ => none

/-- `IFIDRequest`: a SCIONPacket plus its `request_id` view. -/
structure IFIDRequest where
  pkt : SCIONPacket
  request_id : Int
deriving DecidableEq, Repr

/-- `IFIDRequest.from_values(src, request_id)`: destination resolved from
`TYPES_DST[IFID_REQ]`; the header type is `PacketType.DATA` (the source
passes `PacketType.DATA`, not `IFID_REQ`); payload `struct.pack("HH", 0,
request_id)` stored through `set_payload` (payload property dispatch, see
`SCIONPacket.from_values`). -/
def IFIDRequest.from_values (src : SCIONAddr) (request_id : Int) :
    Option IFIDRequest :=
  match get_addr_from_type PacketType.IFID_REQ with
  | none => none
  | some dst =>
    match structPackHH 0 request_id with
    | none => none
    | some pl =>
      some { pkt := (SCIONPacket.mk
               (SCIONHeader.from_values src dst PacketType.DATA none [] 0)
               [] 0).set_payload pl
             request_id := request_id }

/-- `IFIDReply`: a SCIONPacket plus its `reply_id`/`request_id` views. -/
structure IFIDReply where
  pkt : SCIONPacket
  reply_id : Int
  request_id : Int
deriving DecidableEq, Repr

/-- `IFIDReply.from_values(dst, reply_id, request_id)`: source resolved from
`TYPES_SRC[IFID_REP]`; the header type is `PacketType.DATA` (not `IFID_REP`);
no payload is stored by `from_values` (only `pack()` serializes it). -/
def IFIDReply.from_values (dst : SCIONAddr) (reply_id request_id : Int) :
    Option IFIDReply :=
  match get_addr_from_type PacketType.IFID_REP with
  | none => none
  | some src =>
    some { pkt := SCIONPacket.mk
             (SCIONHeader.from_values src dst PacketType.DATA none [] 0) [] 0
           reply_id := reply_id
           request_id := request_id }

/-- `CertChainRequest`: a SCIONPacket plus its field views. -/
structure CertChainRequest where
  pkt : SCIONPacket
  ingress_if : Int
  src_isd : Int
  src_ad : Int
  isd_id : Int
  ad_id : Int
  version : Int
deriving DecidableEq, Repr

/-- `CertChainRequest.from_values(req_type, src, ...)`: destination resolved
from the tables under `req_type`; the header type is `req_type`; payload is
the big-endian record `uintbe:16,16,64,16,64,32`. -/
def CertChainRequest.from_values (req_type : Int) (src : SCIONAddr)
    (ingress_if src_isd src_ad isd_id ad_id version : Int) :
    Option CertChainRequest :=
  match get_addr_from_type req_type with
  | none => none
  | some dst =>
    match packFields [(2, ingress_if), (2, src_isd), (8, src_ad), (2, isd_id),
        (8, ad_id), (4, version)] with
    | none => none
    | some pl =>
      some { pkt := (SCIONPacket.mk
               (SCIONHeader.from_values src dst req_type none [] 0)
               [] 0).set_payload pl
             ingress_if := ingress_if, src_isd := src_isd, src_ad := src_ad
             isd_id := isd_id, ad_id := ad_id, version := version }

/-- `CertChainReply`: a SCIONPacket plus its field views. -/
structure CertChainReply where
  pkt : SCIONPacket
  isd_id : Int
  ad_id : Int
  version : Int
  cert_chain : List Nat
deriving DecidableEq, Repr

/-- `CertChainReply.from_values(dst, isd_id, ad_id, version, cert_chain)`:
source resolved from `TYPES_SRC[CERT_CHAIN_REP]`; header type
`CERT_CHAIN_REP`; payload is `uintbe:16,64,32` followed by the chain bytes. -/
def CertChainReply.from_values (dst : SCIONAddr) (isd_id ad_id version : Int)
    (cert_chain : List Nat) : Option CertChainReply :=
  match get_addr_from_type PacketType.CERT_CHAIN_REP with
  | none => none
  | some src =>
    match packFields [(2, isd_id), (8, ad_id), (4, version)] with
    | none => none
    | some pre =>
      some { pkt := (SCIONPacket.mk
               (SCIONHeader.from_values src dst PacketType.CERT_CHAIN_REP none [] 0)
               [] 0).set_payload (pre ++ cert_chain)
             isd_id := isd_id, ad_id := ad_id, version := version
             cert_chain := cert_chain }

/-- `TRCRequest`: a SCIONPacket plus its field views. -/
structure TRCRequest where
  pkt : SCIONPacket
  ingress_if : Int
  src_isd : Int
  src_ad : Int
  isd_id : Int
  version : Int
deriving DecidableEq, Repr

/-- `TRCRequest.from_values(req_type, src, ...)`: destination resolved from
the tables under `req_type`; header type `req_type`; payload
`uintbe:16,16,64,16,32`. -/
def TRCRequest.from_values (req_type : Int) (src : SCIONAddr)
    (ingress_if src_isd src_ad isd_id version : Int) : Option TRCRequest :=
  match get_addr_from_type req_type with
  | none => none
  | some dst =>
    match packFields [(2, ingress_if), (2, src_isd), (8, src_ad), (2, isd_id),
        (4, version)] with
    | none => none
    | some pl =>
      some { pkt := (SCIONPacket.mk
               (SCIONHeader.from_values src dst req_type none [] 0)
               [] 0).set_payload pl
             ingress_if := ingress_if, src_isd := src_isd, src_ad := src_ad
             isd_id := isd_id, version := version }

/-- `TRCReply`: a SCIONPacket plus its field views. -/
structure TRCReply where
  pkt : SCIONPacket
  isd_id : Int
  version : Int
  trc : List Nat
deriving DecidableEq, Repr

/-- `TRCReply.from_values(dst, isd_id, version, trc)`: source resolved from
`TYPES_SRC[TRC_REP]`; header type `TRC_REP`; payload is `uintbe:16,32`
followed by the TRC bytes. -/
def TRCReply.from_values (dst : SCIONAddr) (isd_id version : Int)
    (trc : List Nat) : Option TRCReply :=
  match get_addr_from_type PacketType.TRC_REP with
  | none => none
  | some src =>
    match packFields [(2, isd_id), (4, version)] with
    | none => none
    | some pre =>
      some { pkt := (SCIONPacket.mk
               (SCIONHeader.from_values src dst PacketType.TRC_REP none [] 0)
               [] 0).set_payload (pre ++ trc)
             isd_id := isd_id, version := version, trc := trc }

/-- Concrete source address for the C4 theorems. -/
def c4src : SCIONAddr := SCIONAddr.from_values 1 1 [10, 0, 0, 1]

/-- Claim C4 counterexample: `IFIDRequest.from_values` yields a header whose
`type` is `PacketType.DATA` (0), not the fixed constant `IFID_REQ` (116). -/
theorem scion_c4_ifid_type_ctrex :
    (IFIDRequest.from_values c4src 7).map (fun r => r.pkt.hdr.common_hdr.type) =
        some PacketType.DATA ∧
      PacketType.DATA ≠ PacketType.IFID_REQ := by
  decide

/-- Claim C4 (amended): `CertChainRequest`/`TRCRequest` set the header type to
their `req_type` argument, `CertChainReply` to `CERT_CHAIN_REP`, `TRCReply` to
`TRC_REP`; but `IFIDRequest` and `IFIDReply` set the header type to
`PacketType.DATA`, not `IFID_REQ`/`IFID_REP` (IFID packets are dispatched via
the reserved pseudo-address placed in the destination/source address
instead). -/
theorem scion_c4_ctrl_types_amended :
    (∀ (src : SCIONAddr) (r : Int) (req : IFIDRequest),
      IFIDRequest.from_values src r = some req →
      req.pkt.hdr.common_hdr.type = PacketType.DATA) ∧
    (∀ (dst : SCIONAddr) (a b : Int) (rep : IFIDReply),
      IFIDReply.from_values dst a b = some rep →
      rep.pkt.hdr.common_hdr.type = PacketType.DATA) ∧
    (∀ (rt : Int) (src : SCIONAddr) (a b c d e f : Int) (req : CertChainRequest),
      CertChainRequest.from_values rt src a b c d e f = some req →
      req.pkt.hdr.common_hdr.type = rt) ∧
    (∀ (dst : SCIONAddr) (a b c : Int) (cc : List Nat) (rep : CertChainReply),
      CertChainReply.from_values dst a b c cc = some rep →
      rep.pkt.hdr.common_hdr.type = PacketType.CERT_CHAIN_REP) ∧
    (∀ (rt : Int) (src : SCIONAddr) (a b c d e : Int) (req : TRCRequest),
      TRCRequest.from_values rt src a b c d e = some req →
      req.pkt.hdr.common_hdr.type = rt) ∧
    (∀ (dst : SCIONAddr) (a b : Int) (t : List Nat) (rep : TRCReply),
      TRCReply.from_values dst a b t = some rep →
      rep.pkt.hdr.common_hdr.type = PacketType.TRC_REP) := by
  refine ⟨?_, ?_, ?_, ?_, ?_, ?_⟩
  · intro src r req h
    unfold IFIDRequest.from_values at h
    split at h
    · simp at h
    · split at h
      · simp at h
      · injection h with h
        subst h
        rfl
  · intro dst a b rep h
    unfold IFIDReply.from_values at h
    split at h
    · simp at h
    · injection h with h
      subst h
      rfl
  · intro rt src a b c d e f req h
    unfold CertChainRequest.from_values at h
    split at h
    · simp at h
    · split at h
      · simp at h
      · injection h with h
        subst h
        rfl
  · intro dst a b c cc rep h
    unfold CertChainReply.from_values at h
    split at h
    · simp at h
    · split at h
      · simp at h
      · injection h with h
        subst h
        rfl
  · intro rt src a b c d e req h
    unfold TRCRequest.from_values at h
    split at h
    · simp at h
    · split at h
      · simp at h
      · injection h with h
        subst h
        rfl
  · intro dst a b t rep h
    unfold TRCReply.from_values at h
    split at h
    · simp at h
    · split at h
      · simp at h
      · injection h with h
        subst h
        rfl

/-- Concrete control packets for the C4 witness (each `from_values` call
succeeds on these arguments). -/
def c4ifidReq : IFIDRequest :=
  (IFIDRequest.from_values c4src 1).getD { pkt := dummyPacket, request_id := 0 }

/-- See `c4ifidReq`. -/
def c4ifidRep : IFIDReply :=
  (IFIDReply.from_values c4src 2 1).getD
    { pkt := dummyPacket, reply_id := 0, request_id := 0 }

/-- See `c4ifidReq`. -/
def c4ccReq : CertChainRequest :=
  (CertChainRequest.from_values PacketType.CERT_CHAIN_REQ c4src 1 2 3 4 5 6).getD
    { pkt := dummyPacket, ingress_if := 0, src_isd := 0, src_ad := 0,
      isd_id := 0, ad_id := 0, version := 0 }

/-- See `c4ifidReq`. -/
def c4ccRep : CertChainReply :=
  (CertChainReply.from_values c4src 1 2 3 [9, 9]).getD
    { pkt := dummyPacket, isd_id := 0, ad_id := 0, version := 0,
      cert_chain := [] }

/-- See `c4ifidReq`. -/
def c4trcReq : TRCRequest :=
  (TRCRequest.from_values PacketType.TRC_REQ c4src 1 2 3 4 5).getD
    { pkt := dummyPacket, ingress_if := 0, src_isd := 0, src_ad := 0,
      isd_id := 0, version := 0 }

/-- See `c4ifidReq`. -/
def c4trcRep : TRCReply :=
  (TRCReply.from_values c4src 1 2 [8, 8]).getD
    { pkt := dummyPacket, isd_id := 0, version := 0, trc := [] }

/-- Witness for C4 (amended): all six constructors at concrete arguments. -/
theorem scion_c4_ctrl_types_amended_witness :
    c4ifidReq.pkt.hdr.common_hdr.type = PacketType.DATA ∧
    c4ifidRep.pkt.hdr.common_hdr.type = PacketType.DATA ∧
    c4ccReq.pkt.hdr.common_hdr.type = PacketType.CERT_CHAIN_REQ ∧
    c4ccRep.pkt.hdr.common_hdr.type = PacketType.CERT_CHAIN_REP ∧
    c4trcReq.pkt.hdr.common_hdr.type = PacketType.TRC_REQ ∧
    c4trcRep.pkt.hdr.common_hdr.type = PacketType.TRC_REP :=
  ⟨scion_c4_ctrl_types_amended.1 c4src 1 c4ifidReq (by decide),
   scion_c4_ctrl_types_amended.2.1 c4src 2 1 c4ifidRep (by decide),
   scion_c4_ctrl_types_amended.2.2.1 PacketType.CERT_CHAIN_REQ c4src 1 2 3 4 5 6
     c4ccReq (by decide),
   scion_c4_ctrl_types_amended.2.2.2.1 c4src 1 2 3 [9, 9] c4ccRep (by decide),
   scion_c4_ctrl_types_amended.2.2.2.2.1 PacketType.TRC_REQ c4src 1 2 3 4 5
     c4trcReq (by decide),
   scion_c4_ctrl_types_amended.2.2.2.2.2 c4src 1 2 [8, 8] c4trcRep (by decide)⟩

/-- Concrete source address for the C7 theorem. -/
def c7src : SCIONAddr := SCIONAddr.from_values 1 1 [10, 0, 0, 2]

/-- Claim C7: the payload of `IFIDRequest.from_values(src, 1)` is
`[0, 0, 1, 0]` — `struct.pack("HH", 0, 1)` emits the shorts in NATIVE
(little-endian on the reference platform) byte order — and not the
big-endian `[0, 0, 0, 1]` the claim requires. -/
theorem scion_c7_ifid_payload_native_order :
    (IFIDRequest.from_values c7src 1).map (fun r => r.pkt.payload) =
        some [0, 0, 1, 0] ∧
      ([0, 0, 1, 0] : List Nat) ≠ [0, 0, 0, 1] := by
  decide
